import Mathlib

/-!
Shallow embedding of the view-state synchronization and search-triggering
logic of `src/App.tsx` (mapbox-react-poi-search).

The component state (React `useState` hooks, App.tsx lines 29-33) is the
record `AppState`; the pure helper `boundsChanged` (lines 49-52), the
reactive effect recomputing the "search this area" affordance
(lines 48-59), the guarded search trigger `performCategorySearch`
(lines 37-46) and the two event subscriptions (map `load`/`moveend`,
lines 77-88, and the category buttons, lines 120-130) are embedded as
pure functions, and the whole View Controller as a step function on
states driven by events.  JavaScript `number[][]` bounds are modelled as
lists of lists of rationals; `JSON.stringify` inequality of two such
arrays coincides with structural inequality of the lists.  `undefined`
is modelled by `Option.none`, and JavaScript truthiness of the
`searchCategory` string (`undefined` and `""` are falsy) by `jsTruthy`.
-/

namespace PoiSearch

/-- Geographic coordinates: the source stores plain JavaScript numbers;
the claims only compare them structurally, so rationals model them. -/
abbrev Coord := ℚ

/-- Viewport bounds: the source stores `number[][]`
(`map.getBounds().toArray()`, an ordered pair of `[lng, lat]` pairs). -/
abbrev Bounds := List (List Coord)

/-- The five category values wired to the buttons (App.tsx lines 108-114);
`onClick` only ever selects one of these. -/
def categoryButtonValues : List String :=
  ["coffee", "restaurant", "bar", "hotel", "museum"]

/-- The `properties` object of a result feature (App.tsx lines 16-22).
`mapbox_id` is `Option`al so that a malformed feature missing its
identifier (spec section 7) is representable. -/
structure FeatureProperties where
  mapbox_id : Option String
  deriving Repr, DecidableEq

/-- A search result feature; the core only reads `properties.mapbox_id`. -/
structure SearchFeature where
  properties : FeatureProperties
  deriving Repr, DecidableEq

/-- JavaScript truthiness of a `string | undefined` value:
`undefined` and the empty string are falsy. -/
def jsTruthy : Option String → Bool
  | none => false
  | some s => !s.isEmpty

/-- `boundsChanged` (App.tsx lines 49-52):
`if (!boundsA || !boundsB) return false;` then
`JSON.stringify(boundsA) !== JSON.stringify(boundsB)`.
An array is always truthy in JavaScript, so `!bounds` holds exactly for
`undefined`; `JSON.stringify` inequality of two numeric arrays is
structural inequality. -/
def boundsChanged (boundsA boundsB : Option Bounds) : Bool :=
  match boundsA, boundsB with
  | none, _ => false
  | _, none => false
  | some a, some b => decide (a ≠ b)

/-- The component state held in the five `useState` hooks
(App.tsx lines 29-33). -/
structure AppState where
  showSearchAreaButton : Bool
  searchCategory : Option String
  searchResults : List SearchFeature
  mapBounds : Option Bounds
  searchBounds : Option Bounds
  deriving Repr, DecidableEq

/-- A call made to the search collaborator
(`searchRef.current.category(searchCategory, { bbox, limit })`,
App.tsx lines 39-42). -/
structure SearchRequest where
  category : String
  bbox : Bounds
  limit : Nat
  deriving Repr, DecidableEq

/-- The guard and call of `performCategorySearch` (App.tsx lines 37-42):
`if (!searchCategory || !mapBounds || !searchRef.current) return;`
otherwise one call with the current category, the current bounds as
`bbox`, and `limit = 25`.  Returns the request issued, or `none` when
the guard makes the trigger a no-op. -/
def performCategorySearchRequest (searchRefPresent : Bool)
    (s : AppState) : Option SearchRequest :=
  match s.searchCategory, s.mapBounds with
  | some cat, some b =>
      if cat.isEmpty || !searchRefPresent then none
      else some { category := cat, bbox := b, limit := 25 }
  | _, _ => none

/-- The state mutation run when an issued search resolves
(App.tsx lines 43-44): `setSearchResults(features)` then
`setSearchBounds(mapBounds)`, where `mapBounds` is the value the async
closure captured when the search was triggered - exactly the `bbox`
passed to the collaborator. -/
def applySearchCompletion (s : AppState) (bboxAtCall : Bounds)
    (features : List SearchFeature) : AppState :=
  { s with searchResults := features, searchBounds := some bboxAtCall }

/-- The reactive effect on `[mapBounds, searchCategory, searchBounds]`
(App.tsx lines 48-59): show the "search this area" button iff
`searchCategory && boundsChanged(mapBounds, searchBounds)`. -/
def recomputeShowSearchAreaButton (s : AppState) : AppState :=
  { s with showSearchAreaButton :=
      jsTruthy s.searchCategory && boundsChanged s.mapBounds s.searchBounds }

/-- The View Controller: component state plus whether the
`SearchBoxCore` instance exists (`searchRef.current`, set once on mount,
App.tsx line 91). -/
structure Sys where
  app : AppState
  searchRefPresent : Bool
  deriving Repr, DecidableEq

/-- The outcome the collaborator's promise settles with: a feature list,
or a rejection. -/
inductive SearchOutcome where
  | resolved (features : List SearchFeature)
  | rejected

/-- The events the View Controller reacts to:
map `load`/`moveend` carrying fresh bounds (App.tsx lines 77-88),
a category button click (lines 120-130), a click on the "search this
area" button (line 137), and the settling of an in-flight search
request (lines 39-44). -/
inductive Event where
  | boundsUpdate (b : Bounds)
  | selectCategory (v : String)
  | clickSearchArea
  | completeSearch (req : SearchRequest) (outcome : SearchOutcome)

/-- One reaction of the View Controller: the successor state together
with the request issued to the search collaborator, if any.

* `boundsUpdate`: `setMapBounds` then the effect of lines 48-59 reruns.
* `selectCategory`: `setSearchCategory(value)`; when the value equals
  the current state React bails out of the update and no effect reruns
  (the `[searchCategory]` dependency is unchanged under `Object.is`), so
  the reaction is a no-op; otherwise the effects reconsider the button
  and run `performCategorySearch` (App.tsx lines 103-105).
* `clickSearchArea`: calls `performCategorySearch` directly; any state
  mutation happens only after the awaited call resolves, so the
  synchronous reaction only issues the request.
* `completeSearch`: on resolution the post-`await` code of lines 43-44
  runs and the effect reconsiders the button; on rejection nothing
  after the `await` runs, so the state is untouched. -/
def step (s : Sys) : Event → Sys × Option SearchRequest
  | .boundsUpdate b =>
      ({ s with app :=
          recomputeShowSearchAreaButton { s.app with mapBounds := some b } },
        none)
  | .selectCategory v =>
      if s.app.searchCategory = some v then
        (s, none)
      else
        let app1 := { s.app with searchCategory := some v }
        ({ s with app := recomputeShowSearchAreaButton app1 },
          performCategorySearchRequest s.searchRefPresent app1)
  | .clickSearchArea =>
      (s, performCategorySearchRequest s.searchRefPresent s.app)
  | .completeSearch req outcome =>
      match outcome with
      | .rejected => (s, none)
      | .resolved features =>
          let app2 := applySearchCompletion s.app req.bbox features
          ({ s with app := recomputeShowSearchAreaButton app2 }, none)

/-- The mounted component before the map's `load` event: every hook at
its initial value (App.tsx lines 29-33), the search box instantiated
(line 91). -/
def initialSys : Sys :=
  { app := { showSearchAreaButton := false, searchCategory := none,
             searchResults := [], mapBounds := none, searchBounds := none },
    searchRefPresent := true }

/-- States the View Controller can actually be in: the initial state
closed under reactions, where category selections come from the fixed
button set (App.tsx lines 108-130). -/
inductive Reachable : Sys → Prop where
  | init : Reachable initialSys
  | boundsStep {s : Sys} (b : Bounds) :
      Reachable s → Reachable (step s (.boundsUpdate b)).1
  | selectStep {s : Sys} {v : String} :
      Reachable s → v ∈ categoryButtonValues →
      Reachable (step s (.selectCategory v)).1
  | clickStep {s : Sys} :
      Reachable s → Reachable (step s .clickSearchArea).1
  | completeStep {s : Sys} (req : SearchRequest) (outcome : SearchOutcome) :
      Reachable s → Reachable (step s (.completeSearch req outcome)).1

/-- Modelled from the spec: `components/POImarker.tsx` is imported by
App.tsx (line 6) but is not among the sources, so the render pass over
the Result Set is modelled from spec section 7: each feature of the
Result Set becomes one marker keyed by its stable unique identifier
`properties.mapbox_id` (App.tsx lines 150-158), and "a Result Feature
missing its unique identifier cannot be rendered; such a feature should
be dropped with a diagnostic, never crash the render pass". -/
def renderPass : List SearchFeature → List (String × SearchFeature) × List String
  | [] => ([], [])
  | f :: fs =>
      match f.properties.mapbox_id with
      | some fid => ((fid, f) :: (renderPass fs).1, (renderPass fs).2)
      | none =>
          ((renderPass fs).1,
            "dropped feature missing mapbox_id" :: (renderPass fs).2)

/-- The repository's default map bounds (App.tsx lines 10-13), used as a
concrete viewport value. -/
def B0 : Bounds :=
  [[mkRat (-7403189) 100000, mkRat 4069684 100000],
   [mkRat (-7398121) 100000, mkRat 4072286 100000]]

/-- A second concrete viewport, the panned bounds of the spec's section 8
scenario. -/
def B1 : Bounds :=
  [[mkRat (-7400) 100, mkRat 4070 100], [mkRat (-7397) 100, mkRat 4073 100]]

/-- A concrete View Controller state: "coffee" selected, a search over
`B0` completed with an empty result set, viewport still at `B0`. -/
def s0 : Sys :=
  { app := { showSearchAreaButton := false, searchCategory := some "coffee",
             searchResults := [], mapBounds := some B0, searchBounds := some B0 },
    searchRefPresent := true }

/-- The request the "coffee" search over `B0` issues. -/
def req0 : SearchRequest := { category := "coffee", bbox := B0, limit := 25 }

lemma boundsChanged_none_right (a : Option Bounds) :
    boundsChanged a none = false := by
  cases a <;> rfl

lemma performCategorySearchRequest_eq_some {r : Bool} {a : AppState}
    {req : SearchRequest} (h : performCategorySearchRequest r a = some req) :
    req.limit = 25 ∧ some req.bbox = a.mapBounds ∧
      some req.category = a.searchCategory := by
  unfold performCategorySearchRequest at h
  split at h
  · rename_i cat b hc hb
    split at h
    · exact Option.noConfusion h
    · obtain rfl := Option.some.inj h
      exact ⟨rfl, by rw [hb], by rw [hc]⟩
  · exact Option.noConfusion h

/-- C7: a rejection of the collaborator's promise leaves every piece of
component state untouched: nothing after the failed `await` runs, so the
previous result set, last-search bounds and affordance all survive, and
no further request is issued. -/
theorem rejected_search_mutates_nothing (s : Sys) (req : SearchRequest) :
    step s (.completeSearch req .rejected) = (s, none) := rfl

/-- C9: the bounds-changed comparison is symmetric and irreflexive, also
at `undefined` arguments. -/
theorem boundsChanged_symm_irrefl (a b : Option Bounds) :
    boundsChanged a b = boundsChanged b a ∧ boundsChanged a a = false := by
  constructor
  · cases a <;> cases b <;> simp [boundsChanged, eq_comm]
  · cases a <;> simp [boundsChanged]

/-- C2, counterexample: the code returns `false`, not `true`, when the
first argument is `undefined` and the second is a defined bounds value
(`boundsChanged` bails out with `false` whenever either argument is
falsy, App.tsx line 50). -/
theorem boundsChanged_undefined_defined_counterexample :
    boundsChanged none (some B0) = false := rfl

/-- C2, amended: the bounds-changed comparison treats `undefined` as
unchanged relative to every value: `changed(undefined, b) = false` and
`changed(b, undefined) = false` for every `b`, in particular
`changed(undefined, undefined) = false`. -/
theorem boundsChanged_undefined_always_unchanged (a : Option Bounds) :
    boundsChanged none a = false ∧ boundsChanged a none = false :=
  ⟨by cases a <;> rfl, boundsChanged_none_right a⟩

/-- C3, counterexample: in the concrete state `s0` with category
"coffee" already selected and bounds captured, clicking the "coffee"
button again issues no search request: `setSearchCategory` receives the
identical value, React bails out of the update, and the
`[searchCategory]` effect does not re-run. -/
theorem same_category_reissues_counterexample :
    (step s0 (.selectCategory "coffee")).2 = none := by
  simp [step, s0]

/-- C3, amended: selecting the category that is already active is a
complete no-op: it does not clear the category, mutates no state at
all, and does not invoke the search collaborator again. -/
theorem same_category_selection_noop (s : Sys) (v : String)
    (h : s.app.searchCategory = some v) :
    step s (.selectCategory v) = (s, none) := by
  simp [step, h]

/-- Witness for the amended C3 at the concrete state `s0`. -/
theorem same_category_selection_noop_witness :
    step s0 (.selectCategory "coffee") = (s0, none) :=
  same_category_selection_noop s0 "coffee" rfl

lemma reachable_invariant {s : Sys} (h : Reachable s) :
    (s.app.searchCategory = none ∨
        s.app.searchCategory ∈ categoryButtonValues.map some) ∧
      s.app.showSearchAreaButton =
        (jsTruthy s.app.searchCategory &&
          boundsChanged s.app.mapBounds s.app.searchBounds) := by
  induction h with
  | init => exact ⟨Or.inl rfl, rfl⟩
  | boundsStep b hr ih =>
      exact ⟨ih.1, rfl⟩
  | selectStep hr hv ih =>
      rename_i s v
      by_cases hc : s.app.searchCategory = some v
      · simpa [step, hc] using ih
      · refine ⟨Or.inr ?_, ?_⟩
        · simp [step, hc, recomputeShowSearchAreaButton]
          exact hv
        · simp [step, hc, recomputeShowSearchAreaButton]
  | clickStep hr ih =>
      simpa [step] using ih
  | completeStep req outcome hr ih =>
      cases outcome with
      | rejected => simpa [step] using ih
      | resolved features => exact ⟨ih.1, rfl⟩

lemma buttonValue_not_empty {v : String} (hv : v ∈ categoryButtonValues) :
    v.isEmpty = false := by
  simp [categoryButtonValues] at hv
  rcases hv with rfl | rfl | rfl | rfl | rfl <;> rfl

/-- C1: in every reachable View Controller state, the "search this
area" affordance is shown exactly when a category is selected and the
current map bounds differ, by the structural comparison `boundsChanged`,
from the bounds recorded at the last completed search; in particular it
is hidden whenever no category is selected. -/
theorem affordance_iff_stale {s : Sys} (h : Reachable s) :
    s.app.showSearchAreaButton = true ↔
      (s.app.searchCategory.isSome = true ∧
        boundsChanged s.app.mapBounds s.app.searchBounds = true) := by
  obtain ⟨hcat, hbtn⟩ := reachable_invariant h
  rw [hbtn]
  rcases hcat with h0 | h1
  · simp [h0, jsTruthy]
  · simp only [List.mem_map] at h1
    obtain ⟨v, hv, hev⟩ := h1
    rw [← hev]
    simp [jsTruthy, buttonValue_not_empty hv]

/-- Witness for C1 at the initial state: no category selected, so the
affordance is hidden. -/
theorem affordance_iff_stale_witness :
    initialSys.app.showSearchAreaButton = true ↔
      (initialSys.app.searchCategory.isSome = true ∧
        boundsChanged initialSys.app.mapBounds initialSys.app.searchBounds
          = true) :=
  affordance_iff_stale Reachable.init

/-- C10: while no search has completed yet (the last-search bounds are
still `undefined`), the affordance is hidden in every reachable state,
whatever category selections and viewport changes led there - because
`boundsChanged` returns `false` whenever either argument is
`undefined`. -/
theorem no_affordance_before_first_search {s : Sys} (h : Reachable s)
    (hb : s.app.searchBounds = none) :
    s.app.showSearchAreaButton = false := by
  obtain ⟨-, hbtn⟩ := reachable_invariant h
  rw [hbtn, hb, boundsChanged_none_right, Bool.and_false]

/-- Witness for C10 at the initial state. -/
theorem no_affordance_before_first_search_witness :
    initialSys.app.showSearchAreaButton = false :=
  no_affordance_before_first_search Reachable.init rfl

/-- C4: every request issued to the search collaborator - by any event,
automatic or manual - carries `limit = 25`, the current viewport bounds
at the moment of triggering as `bbox`, and the currently selected
category; and when the search box exists, a category is selected and
bounds are captured, the manual trigger issues exactly that one
request. -/
theorem search_invocation_parameters (s : Sys) (c : String) (b : Bounds)
    (e : Event) (req : SearchRequest) :
    ((step s e).2 = some req →
        req.limit = 25 ∧ some req.bbox = (step s e).1.app.mapBounds ∧
          some req.category = (step s e).1.app.searchCategory) ∧
    (s.searchRefPresent = true → s.app.searchCategory = some c →
        c.isEmpty = false → s.app.mapBounds = some b →
        (step s .clickSearchArea).2 =
          some { category := c, bbox := b, limit := 25 }) := by
  constructor
  · intro h
    cases e with
    | boundsUpdate b2 => exact Option.noConfusion h
    | selectCategory v =>
        by_cases hc : s.app.searchCategory = some v
        · simp [step, hc] at h
        · simp only [step, if_neg hc] at h ⊢
          obtain ⟨h1, h2, h3⟩ := performCategorySearchRequest_eq_some h
          exact ⟨h1, h2, h3⟩
    | clickSearchArea =>
        obtain ⟨h1, h2, h3⟩ :=
          performCategorySearchRequest_eq_some (by simpa [step] using h)
        exact ⟨h1, h2, h3⟩
    | completeSearch req2 outcome =>
        cases outcome with
        | rejected => exact Option.noConfusion h
        | resolved features => exact Option.noConfusion h
  · intro hr hc hce hb
    simp [step, performCategorySearchRequest, hc, hb, hce, hr]

/-- Witness for C4: in the concrete state `s0`, clicking "search this
area" issues exactly the request (category "coffee", bbox `B0`,
limit 25), whose parameters match the current state. -/
theorem search_invocation_parameters_witness :
    (step s0 .clickSearchArea).2 = some req0 ∧
      (req0.limit = 25 ∧
        some req0.bbox = (step s0 .clickSearchArea).1.app.mapBounds ∧
        some req0.category = (step s0 .clickSearchArea).1.app.searchCategory) := by
  have h := search_invocation_parameters s0 "coffee" B0 .clickSearchArea req0
  have h2 := h.2 rfl rfl (by decide) rfl
  exact ⟨h2, h.1 h2⟩

/-- C5: when an issued search resolves, the result set is replaced by
the returned features and the last-search bounds become exactly the
`bbox` that was passed to the collaborator; if the viewport did not
move while the search was in flight, the affordance ends up hidden. -/
theorem completion_replaces_snapshot (s : Sys) (req : SearchRequest)
    (features : List SearchFeature) (h : s.app.mapBounds = some req.bbox) :
    (step s (.completeSearch req (.resolved features))).1.app.searchResults
        = features ∧
      (step s (.completeSearch req (.resolved features))).1.app.searchBounds
        = some req.bbox ∧
      (step s (.completeSearch req (.resolved features))).1.app.showSearchAreaButton
        = false := by
  refine ⟨rfl, rfl, ?_⟩
  simp [step, recomputeShowSearchAreaButton, applySearchCompletion, h,
    boundsChanged]

/-- A one-element result set with a well-formed feature. -/
def features0 : List SearchFeature :=
  [{ properties := { mapbox_id := some "poi-1" } }]

/-- Witness for C5: completing the "coffee" search over `B0` in state
`s0` (viewport still at `B0`) stores `features0`, records `B0`, and
hides the affordance. -/
theorem completion_replaces_snapshot_witness :
    (step s0 (.completeSearch req0 (.resolved features0))).1.app.searchResults
        = features0 ∧
      (step s0 (.completeSearch req0 (.resolved features0))).1.app.searchBounds
        = some req0.bbox ∧
      (step s0 (.completeSearch req0 (.resolved features0))).1.app.showSearchAreaButton
        = false :=
  completion_replaces_snapshot s0 req0 features0 rfl

/-- C6: with no category selected or no bounds captured yet, the manual
trigger is a complete no-op - the reaction returns the state unchanged
and issues no request - and a category selection made while bounds are
still `undefined` issues no request either. -/
theorem trigger_noop_without_category_or_bounds (s : Sys) (v : String)
    (h : s.app.searchCategory = none ∨ s.app.mapBounds = none) :
    step s .clickSearchArea = (s, none) ∧
      (s.app.mapBounds = none → (step s (.selectCategory v)).2 = none) := by
  constructor
  · have hnone : performCategorySearchRequest s.searchRefPresent s.app = none := by
      rcases h with h | h
      · simp [performCategorySearchRequest, h]
      · cases hc : s.app.searchCategory <;>
          simp [performCategorySearchRequest, hc, h]
    simp [step, hnone]
  · intro hb
    by_cases hc : s.app.searchCategory = some v
    · simp [step, hc]
    · simp [step, hc, performCategorySearchRequest, hb]

/-- Witness for C6 at the initial state (no category, no bounds):
clicking the affordance changes nothing and issues nothing, and
selecting "coffee" issues no request. -/
theorem trigger_noop_without_category_or_bounds_witness :
    step initialSys .clickSearchArea = (initialSys, none) ∧
      (step initialSys (.selectCategory "coffee")).2 = none := by
  have h :=
    trigger_noop_without_category_or_bounds initialSys "coffee" (Or.inl rfl)
  exact ⟨h.1, h.2 rfl⟩

lemma renderPass_marker_id {fs : List SearchFeature}
    {m : String × SearchFeature} (hm : m ∈ (renderPass fs).1) :
    m.2.properties.mapbox_id = some m.1 := by
  induction fs with
  | nil => simp [renderPass] at hm
  | cons g gs ih =>
      rcases hg : g.properties.mapbox_id with _ | fid <;>
        simp [renderPass, hg] at hm
      · exact ih hm
      · rcases hm with rfl | hm
        · simpa using hg
        · exact ih hm

lemma renderPass_diag_nonempty {fs : List SearchFeature}
    {f : SearchFeature} (h1 : f ∈ fs)
    (h2 : f.properties.mapbox_id = none) : (renderPass fs).2 ≠ [] := by
  induction fs with
  | nil => cases h1
  | cons g gs ih =>
      rcases hg : g.properties.mapbox_id with _ | fid
      · simp [renderPass, hg]
      · rcases List.mem_cons.mp h1 with rfl | h1g
        · rw [h2] at hg
          exact Option.noConfusion hg
        · simp only [renderPass, hg]
          exact ih h1g

/-- C8: a result feature whose `properties.mapbox_id` is missing is
dropped by the render pass - it appears among no rendered marker and a
diagnostic is recorded - and the render pass, a total function, never
crashes on it. -/
theorem malformed_feature_dropped (fs : List SearchFeature)
    (f : SearchFeature) (h1 : f ∈ fs)
    (h2 : f.properties.mapbox_id = none) :
    f ∉ ((renderPass fs).1.map Prod.snd) ∧ (renderPass fs).2 ≠ [] := by
  refine ⟨?_, renderPass_diag_nonempty h1 h2⟩
  intro hmem
  obtain ⟨m, hm, hsnd⟩ := List.mem_map.mp hmem
  have hid := renderPass_marker_id hm
  rw [hsnd, h2] at hid
  exact Option.noConfusion hid

/-- A malformed feature: its `mapbox_id` is missing. -/
def badFeature : SearchFeature := { properties := { mapbox_id := none } }

/-- A result set mixing a well-formed feature and a malformed one. -/
def mixedResults : List SearchFeature :=
  [{ properties := { mapbox_id := some "poi-1" } }, badFeature]

/-- Witness for C8 on the concrete mixed result set. -/
theorem malformed_feature_dropped_witness :
    badFeature ∉ ((renderPass mixedResults).1.map Prod.snd) ∧
      (renderPass mixedResults).2 ≠ [] :=
  malformed_feature_dropped mixedResults badFeature (by decide) rfl

end PoiSearch
